import Mathlib

/-!
Verification development for the document-processing pipeline of the
`complete_agency` repository (module `document_scanner`).

The definitions below are a shallow embedding of `document_scanner/services.py`
and the data model of `document_scanner/models.py`.  Python strings are
modelled as `String` / `List Char`; Python floats that only ever hold exact
decimal values (OCR confidences, averages) are modelled as `ℚ`; Python
exceptions are modelled as explicit `Except` / `Option` / error constructors;
the I/O oracles (Tesseract, PyPDF2, pdf2image, the file system, Django rows)
are modelled as explicit environment values.
-/

/-! ### Character and string helpers (Python semantics, ASCII inputs)

`isSpaceChar` is Python's `str.strip` / `\s` whitespace set, `trimWs` is
`str.strip`, `splitNL` is `str.split('\n')`, `splitWsRuns`+`wordCount` give
`len(s.split())`, `joinSep` is `sep.join(...)`, and `subList` is Python's
substring test `needle in hay`. -/

def isWordChar (c : Char) : Bool := c.isAlphanum || c = '_'

def isSpaceChar (c : Char) : Bool :=
  c = ' ' || c = '\t' || c = '\n' || c = '\x0d' || c = '\x0b' || c = '\x0c'

def trimWs (l : List Char) : List Char :=
  ((l.dropWhile isSpaceChar).reverse.dropWhile isSpaceChar).reverse

def splitNL : List Char → List (List Char)
  | [] => [[]]
  | c :: cs =>
    if c = '\n' then [] :: splitNL cs
    else
      match splitNL cs with
      | [] => [[c]]
      | l :: ls => (c :: l) :: ls

def joinSep (sep : List Char) : List (List Char) → List Char
  | [] => []
  | [x] => x
  | x :: xs => x ++ sep ++ joinSep sep xs

def splitWsRuns : List Char → List (List Char)
  | [] => [[]]
  | c :: cs =>
    if isSpaceChar c then [] :: splitWsRuns cs
    else
      match splitWsRuns cs with
      | [] => [[c]]
      | l :: ls => (c :: l) :: ls

def wordCount (l : List Char) : Nat :=
  ((splitWsRuns l).filter (fun w => !w.isEmpty)).length

def subList (needle hay : List Char) : Bool :=
  match hay with
  | [] => needle.isEmpty
  | _ :: t => needle.isPrefixOf hay || subList needle t

/-- Python `str.strip()` on a `String`. -/
def stripS (s : String) : String := String.mk (trimWs s.data)

/-- Python `str.endswith(suff)`. -/
def strEndsWith (s suff : String) : Bool := suff.data.isSuffixOf s.data

/-! ### A small backtracking regex engine

A matcher works over a fixed character list `cs`; from a start position it
returns the candidate end positions in exactly the priority order of Python's
backtracking `re` engine (greedy quantifiers try longer consumptions first,
alternatives are tried left to right), so the head of the returned list is
the end position Python's engine commits to. -/

abbrev Mr := List Char → Nat → List Nat

def mCls (p : Char → Bool) : Mr := fun cs i =>
  match cs[i]? with
  | some c => if p c then [i + 1] else []
  | none => []

def mSeq (a b : Mr) : Mr := fun cs i => (a cs i).flatMap (b cs)

def mAlt (a b : Mr) : Mr := fun cs i => a cs i ++ b cs i

def mOpt (a : Mr) : Mr := fun cs i => a cs i ++ [i]

def mRep (a : Mr) : Nat → Mr
  | 0 => fun _ i => [i]
  | n + 1 => mSeq a (mRep a n)

def mUpTo (a : Mr) : Nat → Mr
  | 0 => fun _ i => [i]
  | n + 1 => fun cs i => ((a cs i).flatMap (mUpTo a n cs)) ++ [i]

/-- Greedy bounded repetition `a{lo,hi}`. -/
def mBetween (a : Mr) (lo hi : Nat) : Mr := mSeq (mRep a lo) (mUpTo a (hi - lo))

def runLen (p : Char → Bool) (cs : List Char) (i : Nat) : Nat :=
  ((cs.drop i).takeWhile p).length

/-- Greedy unbounded repetition of a character class, at least `lo` characters
(`X+` is `mAtLeast X 1`, `X{2,}` is `mAtLeast X 2`). -/
def mAtLeast (p : Char → Bool) (lo : Nat) : Mr := fun cs i =>
  let n := runLen p cs i
  if n < lo then [] else (List.range (n - lo + 1)).map (fun k => i + n - k)

def wordAt (cs : List Char) (i : Nat) : Bool :=
  match cs[i]? with
  | some c => isWordChar c
  | none => false

/-- Python's word boundary `\b`. -/
def mBound : Mr := fun cs i =>
  let pw := match i with
    | 0 => false
    | j + 1 => wordAt cs j
  if pw != wordAt cs i then [i] else []

/-- Leftmost match scan, as used by `re.findall` / first element access:
try every start position left to right; commit to the engine's first
accepting end position. -/
def scanFirst (m : Mr) (cs : List Char) : Nat → Nat → Option (Nat × Nat)
  | 0, _ => none
  | fuel + 1, i =>
    match (m cs i).head? with
    | some e => some (i, e)
    | none => scanFirst m cs fuel (i + 1)

/-- All non-overlapping leftmost matches, as `re.findall` produces them. -/
def scanAll (m : Mr) (cs : List Char) : Nat → Nat → List (Nat × Nat)
  | 0, _ => []
  | fuel + 1, i =>
    if i > cs.length then []
    else
      match (m cs i).head? with
      | some e => (i, e) :: scanAll m cs fuel (max e (i + 1))
      | none => scanAll m cs fuel (i + 1)

def subStr (cs : List Char) (i e : Nat) : String := String.mk ((cs.drop i).take (e - i))

/-! ### The three patterns of `DataExtractionService.__init__` (services.py 129-132) -/

/-- Character class of the email local part [A-Za-z0-9._%+-]. -/
def localCls (c : Char) : Bool :=
  c.isAlpha || c.isDigit || c = '.' || c = '_' || c = '%' || c = '+' || c = '-'

/-- Character class of the email domain [A-Za-z0-9.-]. -/
def domCls (c : Char) : Bool := c.isAlpha || c.isDigit || c = '.' || c = '-'

/-- Character class [A-Z|a-z] of the email pattern's final run (the source's
class literally contains the bar character). -/
def tldCls (c : Char) : Bool := c.isAlpha || c = '|'

/-- email_pattern from services.py line 130. -/
def emailM : Mr :=
  mSeq mBound (mSeq (mAtLeast localCls 1) (mSeq (mCls (· = '@'))
    (mSeq (mAtLeast domCls 1) (mSeq (mCls (· = '.')) (mSeq (mAtLeast tldCls 2) mBound)))))

def digCls (c : Char) : Bool := c.isDigit

/-- Separator class [-.\s] of the phone pattern. -/
def sepCls (c : Char) : Bool := c = '-' || c = '.' || isSpaceChar c

/-- Capture group 1 of phone_pattern (services.py line 131): an optional
country code with optional plus sign and optional trailing separator. -/
def phoneBody : Mr :=
  mSeq (mOpt (mCls (· = '+'))) (mSeq (mBetween (mCls digCls) 1 3) (mOpt (mCls sepCls)))

/-- The remainder of phone_pattern after the optional capture group. -/
def phoneRest : Mr :=
  mSeq (mOpt (mCls (· = '('))) (mSeq (mRep (mCls digCls) 3) (mSeq (mOpt (mCls (· = ')')))
    (mSeq (mOpt (mCls sepCls)) (mSeq (mRep (mCls digCls) 3)
      (mSeq (mOpt (mCls sepCls)) (mRep (mCls digCls) 4))))))

/-- Match attempt of the full phone pattern at one position, recording whether
capture group 1 participates and, if so, its span.  The group-present
alternatives are tried before skipping the optional group, exactly as
Python's engine does. -/
def phoneMatchAt (cs : List Char) (i : Nat) : List (Option (Nat × Nat) × Nat) :=
  (((phoneBody cs i).map (fun j => (some (i, j), j))) ++ [(none, i)]).flatMap
    (fun gj => (phoneRest cs gj.2).map (fun e => (gj.1, e)))

def scanPhone (cs : List Char) : Nat → Nat → Option (Option (Nat × Nat) × Nat)
  | 0, _ => none
  | fuel + 1, i =>
    match (phoneMatchAt cs i).head? with
    | some r => some r
    | none => scanPhone cs fuel (i + 1)

def dateSep (c : Char) : Bool := c = '/' || c = '-'

/-- First alternative of date_pattern (services.py line 132): one or two
digits, slash-or-hyphen, one or two digits, slash-or-hyphen, two to four
digits, between word boundaries. -/
def dateM1 : Mr :=
  mSeq mBound (mSeq (mBetween (mCls digCls) 1 2) (mSeq (mCls dateSep)
    (mSeq (mBetween (mCls digCls) 1 2) (mSeq (mCls dateSep)
      (mSeq (mBetween (mCls digCls) 2 4) mBound)))))

/-- Second alternative of date_pattern: four digits, slash-or-hyphen, one or
two digits, slash-or-hyphen, one or two digits, between word boundaries. -/
def dateM2 : Mr :=
  mSeq mBound (mSeq (mRep (mCls digCls) 4) (mSeq (mCls dateSep)
    (mSeq (mBetween (mCls digCls) 1 2) (mSeq (mCls dateSep)
      (mSeq (mBetween (mCls digCls) 1 2) mBound)))))

def dateM : Mr := mAlt dateM1 dateM2

/-- First match of email_pattern, i.e. `emails[0]` of `findall` when non-empty. -/
def emailFirst (t : String) : Option String :=
  let cs := t.data
  (scanFirst emailM cs (cs.length + 1) 0).map (fun p => subStr cs p.1 p.2)

/-- First element of `phone_pattern.findall(text)`.  Because the pattern has
exactly one capture group, Python's `findall` returns the text of GROUP 1 of
each match — the empty string when the optional group did not participate. -/
def phoneFirst (t : String) : Option String :=
  let cs := t.data
  (scanPhone cs (cs.length + 1) 0).map (fun r =>
    match r.1 with
    | some g => subStr cs g.1 g.2
    | none => "")

/-- `date_pattern.findall(text)` (no capture groups, so full match texts). -/
def dateFindall (t : String) : List String :=
  let cs := t.data
  (scanAll dateM cs (cs.length + 1) 0).map (fun p => subStr cs p.1 p.2)

/-! ### DataExtractionService (services.py 126-229) -/

/-- A value stored in the extracted-data dictionary: Python strings or lists
of strings. -/
inductive DVal where
  | s (v : String)
  | ls (v : List String)
deriving DecidableEq

/-- Python truthiness of a dictionary value. -/
def DVal.truthy : DVal → Bool
  | .s v => v != ""
  | .ls v => !v.isEmpty

/-- extract_contact_info (services.py 134-148): first email match and first
phone match, inserted in that order when present. -/
def extract_contact_info (t : String) : List (String × DVal) :=
  (match emailFirst t with
   | some e => [("email", DVal.s e)]
   | none => []) ++
  (match phoneFirst t with
   | some p => [("phone", DVal.s p)]
   | none => [])

/-- The per-line test of the full-name heuristic (services.py 156-162),
applied to an already-stripped line: non-empty, at least two
whitespace-separated tokens, length under 50, no digit, no at sign. -/
def isNameLine (l : String) : Bool :=
  l != "" && decide (2 ≤ wordCount l.data) && decide (l.length < 50) &&
    !(l.data.any Char.isDigit) && !(l.data.contains '@')

/-- The loop of services.py 156-162: strip each line, stop at the first line
passing `isNameLine`. -/
def nameScan : List (List Char) → Option String
  | [] => none
  | l :: ls =>
    let l2 := String.mk (trimWs l)
    if isNameLine l2 then some l2 else nameScan ls

/-- Full-name candidate of extract_personal_info: the source scans
`lines[:5]`, the first five RAW lines of the newline split. -/
def fullNameOf (t : String) : Option String := nameScan ((splitNL t.data).take 5)

/-- extract_personal_info (services.py 150-169): the optional full name
followed by the `dates_found` entry when the date pattern matched anywhere. -/
def extract_personal_info (t : String) : List (String × DVal) :=
  (match fullNameOf t with
   | some n => [("full_name", DVal.s n)]
   | none => []) ++
  (match dateFindall t with
   | [] => []
   | d :: ds => [("dates_found", DVal.ls (d :: ds))])

def experienceKws : List String := ["experience", "years", "worked", "employment", "career"]

def skillsKws : List String := ["skills", "technologies", "programming", "software", "tools"]

def educationKws : List String := ["education", "degree", "university", "college", "bachelor", "master", "phd"]

/-- Python `any(kw in line for kw in kws)` (substring containment). -/
def containsKw (l : List Char) (kws : List String) : Bool :=
  kws.any (fun k => subList k.data l)

/-- The skills loop of services.py 183-192: a skills-keyword line opens the
section and is itself excluded; subsequent non-blank lines accumulate until a
line with an education or experience keyword breaks the loop. -/
def skillsScan : Bool → List (List Char) → List String
  | _, [] => []
  | inS, l :: ls =>
    if containsKw l skillsKws then skillsScan true ls
    else if inS && !(trimWs l).isEmpty then
      if containsKw l (educationKws ++ experienceKws) then []
      else String.mk (trimWs l) :: skillsScan inS ls
    else skillsScan inS ls

/-- The education loop of services.py 197-208: an education-keyword line opens
the section and is itself included; accumulation breaks at a line with a
skills keyword or the word "experience". -/
def eduScan : Bool → List (List Char) → List String
  | _, [] => []
  | inE, l :: ls =>
    if containsKw l educationKws then String.mk (trimWs l) :: eduScan true ls
    else if inE && !(trimWs l).isEmpty then
      if containsKw l (skillsKws ++ ["experience"]) then []
      else String.mk (trimWs l) :: eduScan inE ls
    else eduScan inE ls

/-- `text.lower().split('\n')` of services.py line 180. -/
def lowerLines (t : String) : List (List Char) := splitNL (t.data.map Char.toLower)

/-- extract_professional_info (services.py 171-213). -/
def extract_professional_info (t : String) : List (String × DVal) :=
  let lines := lowerLines t
  let sk := skillsScan false lines
  let ed := eduScan false lines
  (if !sk.isEmpty then
     [("skills", DVal.s (String.mk (joinSep [',', ' '] ((sk.take 10).map String.data))))]
   else []) ++
  (if !ed.isEmpty then
     [("education", DVal.s (String.mk (joinSep ['\n'] ((ed.take 5).map String.data))))]
   else [])

/-- extract_structured_data (services.py 215-229): the union of the three
dictionaries; their key sets are disjoint, so dictionary update order is
concatenation order. -/
def extract_structured_data (t : String) : List (String × DVal) :=
  extract_contact_info t ++ extract_personal_info t ++ extract_professional_info t

/-- Dictionary lookup, `d.get(k)`. -/
def dlookup (d : List (String × DVal)) (k : String) : Option DVal :=
  (d.find? (fun p => p.1 == k)).map (fun p => p.2)

/-! ### OCRService (services.py 27-124)

The Tesseract oracle for one decoded raster image is modelled by the tokens
it recognises (text and integer confidence each, `image_to_data`) together
with a flag for the recognizer raising.  `image_to_string` output is the
recognised token texts joined by whitespace. -/

structure OcrImage where
  tokens : List (String × Int)
  ocrFails : Bool

def imageConfs (img : OcrImage) : List Int := img.tokens.map (fun p => p.2)

def imageText (img : OcrImage) : String :=
  String.mk (joinSep [' '] ((img.tokens.map (fun p => p.1)).map String.data))

/-- extract_text_from_image (services.py 52-72): mean of the per-token
confidences that are STRICTLY positive (`int(conf) > 0`), stripped recognised
text; any recognizer exception is absorbed into `("", 0)`. -/
def extract_text_from_image (img : OcrImage) : String × ℚ :=
  if img.ocrFails then ("", 0)
  else
    let confidences := (imageConfs img).filter (fun c => decide (0 < c))
    let avg : ℚ :=
      if confidences.isEmpty then 0
      else ((confidences.foldl (· + ·) 0 : Int) : ℚ) / confidences.length
    (stripS (imageText img), avg)

/-- Environment of one extract_text_from_pdf call: the native text layer read
attempt (`PdfReader`; on an exception thrown mid-read the error carries the
page texts accumulated before the raise), and the page rasterization
(`convert_from_path`, `none` when it raises). -/
structure PdfEnv where
  direct : Except (List String) (List String)
  render : Option (List OcrImage)

/-- The direct-extraction accumulation of services.py 86-89: each page whose
text is non-blank contributes its text plus a newline. -/
def directConcat (pages : List String) : String :=
  pages.foldl (fun acc t => if (trimWs t.data).isEmpty then acc else acc ++ t ++ "\n") ""

def pageMarker (i : Nat) : String := "\n--- Page " ++ toString (i + 1) ++ " ---\n"

/-- The OCR fallback of services.py 96-107, starting from the text
accumulated by the direct attempt: OCR every rendered page, append each text
with a page marker, average the per-page confidences over the page count
(0 for zero pages); a rasterization failure hits the outer handler and
collapses to `("", 0, 0)`. -/
def pdfOcrFallback (render : Option (List OcrImage)) (acc : String) : String × ℚ × Nat :=
  match render with
  | none => ("", 0, 0)
  | some imgs =>
    let results := imgs.map extract_text_from_image
    let allText := (results.enum).foldl (fun a p => a ++ p.2.1 ++ pageMarker p.1) acc
    let total : ℚ := results.foldl (fun t p => t + p.2) 0
    let avg : ℚ := if imgs.isEmpty then 0 else total / imgs.length
    (stripS allText, avg, imgs.length)

/-- Whether the direct phase fails to produce non-blank text (so the OCR
fallback runs). -/
def pdfDirectBlank (env : PdfEnv) : Bool :=
  match env.direct with
  | Except.ok pages => (stripS (directConcat pages)).isEmpty
  | Except.error _ => true

/-- extract_text_from_pdf (services.py 74-111). -/
def extract_text_from_pdf (env : PdfEnv) : String × ℚ × Nat :=
  match env.direct with
  | Except.ok pages =>
    let allText := directConcat pages
    if (stripS allText).isEmpty then pdfOcrFallback env.render allText
    else (stripS allText, 95, pages.length)
  | Except.error donePages => pdfOcrFallback env.render (directConcat donePages)

/-- os.path.splitext(p)[1]: the extension of the basename, empty when the
basename's only dots are leading. -/
def lastIdxOf (c : Char) (l : List Char) : Option Nat :=
  (l.enum).foldl (fun acc p => if p.2 == c then some p.1 else acc) none

def splitextExt (p : String) : String :=
  let cs := p.data
  let base := match lastIdxOf '/' cs with
    | some i => cs.drop (i + 1)
    | none => cs
  match lastIdxOf '.' base with
  | none => ""
  | some i => if (base.take i).any (fun c => c != '.') then String.mk (base.drop i) else ""

/-- `os.path.splitext(document_path)[1].lower()` (services.py line 115). -/
def splitextExtLower (p : String) : String :=
  String.mk ((splitextExt p).data.map Char.toLower)

def imageExts : List String := [".jpg", ".jpeg", ".png", ".tiff", ".bmp"]

/-- Outcome of extract_text_from_document: a returned triple, a propagated
`Image.open` exception (the image branch opens the file OUTSIDE any handler,
services.py line 120), or the `ValueError` of the unsupported-format branch. -/
inductive DocResult where
  | ok (r : String × ℚ × Nat)
  | imageOpenError
  | unsupported (ext : String)
deriving DecidableEq

def DocResult.isOk : DocResult → Bool
  | .ok _ => true
  | _ => false

/-- Environment of one extract_text_from_document call: the PDF oracle and
the `Image.open` outcome for the path (`none` when opening/decoding raises). -/
structure DocEnv where
  pdf : PdfEnv
  imageOpen : Option OcrImage

/-- extract_text_from_document (services.py 113-124). -/
def extract_text_from_document (env : DocEnv) (p : String) : DocResult :=
  let ext := splitextExtLower p
  if ext == ".pdf" then DocResult.ok (extract_text_from_pdf env.pdf)
  else if imageExts.contains ext then
    match env.imageOpen with
    | none => DocResult.imageOpenError
    | some img =>
      let r := extract_text_from_image img
      DocResult.ok (r.1, r.2, 1)
  else DocResult.unsupported ext

/-! ### CVGenerationService.merge_documents (services.py 387-413)

The file system is a partial map from paths to PDF page lists
(`os.path.exists` is definedness); pages are opaque contents, appended to the
writer unchanged. -/

def merge_documents (fs : String → Option (List String)) (cv_path app_path orig_path : String) :
    List String :=
  let w0 : List String := []
  let w1 := match fs cv_path with
    | some ps => w0 ++ ps
    | none => w0
  let w2 := match fs app_path with
    | some ps => w1 ++ ps
    | none => w1
  match fs orig_path with
  | some ps => if strEndsWith orig_path ".pdf" then w2 ++ ps else w2
  | none => w2

/-! ### DocumentScan rows and DocumentProcessingService.process_document
(models.py 19-90, services.py 423-467) -/

inductive ScanStatus where
  | pending
  | processing
  | completed
  | failed
deriving DecidableEq

structure ScanState where
  scan_status : ScanStatus
  extracted_text : Option String
  confidence_score : ℚ
  page_count : Nat
  processing_time : ℚ
  error_message : Option String
deriving DecidableEq

/-- An ExtractedData row instance, modelled as its attribute map. -/
def Row : Type := String → Option DVal

/-- The field names of the ExtractedData model (models.py 64-90).  `hasattr`
on a row instance holds for these; `dates_found` is NOT among them. -/
def extractedDataFields : List String :=
  ["id", "document_scan", "full_name", "email", "phone", "address", "date_of_birth",
   "current_position", "company", "experience_years", "skills", "education",
   "certifications", "additional_data", "created_at", "updated_at"]

def mkRow (d : List (String × DVal)) : Row := fun k => dlookup d k

/-- The create branch of `ExtractedData.objects.get_or_create(...,
defaults=structured_data)`: Django's model constructor raises a `TypeError`
when any default key is not a model field. -/
def createRow (d : List (String × DVal)) : Except String Row :=
  if d.all (fun p => extractedDataFields.contains p.1) then Except.ok (mkRow d)
  else Except.error "ExtractedData() got unexpected keyword arguments"

/-- The update branch of services.py 453-458: for each dictionary item, the
field is overwritten only when the row has the attribute AND the value is
truthy. -/
def updateRow (r : Row) (d : List (String × DVal)) : Row :=
  d.foldl (fun acc p =>
    if extractedDataFields.contains p.1 && DVal.truthy p.2 then
      fun k => if k == p.1 then some p.2 else acc k
    else acc) r

/-- Environment of one process_document call: the outcome of
extract_text_from_document on the scan's file (an exception message, or the
extracted triple), the pre-existing ExtractedData row if any, and the
measured elapsed time. -/
structure ProcEnv where
  ocr : Except String (String × ℚ × Nat)
  existing : Option Row
  elapsed : ℚ

structure ProcResult where
  ok : Bool
  scan : ScanState
  row : Option Row
  trace : List ScanState

/-- process_document (services.py 423-467).  `trace` records the scan row
after each `save()` in order. -/
def process_document (env : ProcEnv) (s0 : ScanState) : ProcResult :=
  let s1 := { s0 with scan_status := ScanStatus.processing }
  match env.ocr with
  | Except.error msg =>
    let sf := { s1 with scan_status := ScanStatus.failed, error_message := some msg }
    { ok := false, scan := sf, row := env.existing, trace := [s1, sf] }
  | Except.ok r =>
    let s2 := { s1 with
      extracted_text := some r.1
      confidence_score := r.2.1
      page_count := r.2.2
      processing_time := env.elapsed
      scan_status := ScanStatus.completed }
    let sd := extract_structured_data r.1
    match env.existing with
    | none =>
      match createRow sd with
      | Except.ok row => { ok := true, scan := s2, row := some row, trace := [s1, s2] }
      | Except.error m =>
        let sf := { s2 with scan_status := ScanStatus.failed, error_message := some m }
        { ok := false, scan := sf, row := none, trace := [s1, s2, sf] }
    | some row =>
      { ok := true, scan := s2, row := some (updateRow row sd), trace := [s1, s2] }

/-! ### GeneratedCV and DocumentProcessingService.generate_cv_and_forms
(models.py 92-133, services.py 469-507) -/

inductive GenStatus where
  | pending
  | generating
  | completed
  | failed
deriving DecidableEq

structure GenState where
  generation_status : GenStatus
  cv_file : Option String
  application_form : Option String
  merged_document : Option String
  error_message : Option String
deriving DecidableEq

structure GenResult where
  ok : Bool
  gcv : GenState
  trace : List GenState

/-- The except branch of services.py 502-507: mark failed, persist the
message, return False.  Earlier saved states stay in the trace. -/
def failGen (tr : List GenState) (s : GenState) (m : String) : GenResult :=
  let sf := { s with generation_status := GenStatus.failed, error_message := some m }
  { ok := false, gcv := sf, trace := tr ++ [sf] }

/-- generate_cv_and_forms (services.py 469-507).  The seven steps inside the
`try` that can raise are indexed in execution order: 0 fetch extracted_data,
1 render CV, 2 save cv_file, 3 render application form, 4 save
application_form, 5 merge, 6 save merged_document; `fails i` is the exception
message when step `i` raises.  File saves persist their field immediately
(FieldFile.save with the default save=True). -/
def generate_cv_and_forms (fails : Nat → Option String) (gid : String) (g0 : GenState) :
    GenResult :=
  let s1 := { g0 with generation_status := GenStatus.generating }
  match fails 0 with
  | some m => failGen [s1] s1 m
  | none =>
    match fails 1 with
    | some m => failGen [s1] s1 m
    | none =>
      match fails 2 with
      | some m => failGen [s1] s1 m
      | none =>
        let s2 := { s1 with cv_file := some ("cv_" ++ gid ++ ".pdf") }
        match fails 3 with
        | some m => failGen [s1, s2] s2 m
        | none =>
          match fails 4 with
          | some m => failGen [s1, s2] s2 m
          | none =>
            let s3 := { s2 with application_form := some ("application_" ++ gid ++ ".pdf") }
            match fails 5 with
            | some m => failGen [s1, s2, s3] s3 m
            | none =>
              match fails 6 with
              | some m => failGen [s1, s2, s3] s3 m
              | none =>
                let s4 := { s3 with merged_document := some ("merged_" ++ gid ++ ".pdf") }
                let s5 := { s4 with generation_status := GenStatus.completed }
                { ok := true, gcv := s5, trace := [s1, s2, s3, s4, s5] }

/-- The artifact-ordering invariant of the spec: a merged document implies
both earlier artifacts, and an application form implies a CV. -/
def genInv (s : GenState) : Prop :=
  (s.merged_document.isSome = true → s.application_form.isSome = true ∧ s.cv_file.isSome = true) ∧
  (s.application_form.isSome = true → s.cv_file.isSome = true)

/-! ### Definitions taken from the spec's wording, for comparison with the
source (used only to exhibit divergences) -/

/-- Modelled from the spec: the full-name heuristic as the spec words it,
scanning the first 5 NON-EMPTY lines (the source scans `lines[:5]`, the first
5 raw lines). -/
def specFullNameScan (t : String) : Option String :=
  (((((splitNL t.data).map (fun l => String.mk (trimWs l))).filter (fun l => l != "")).take 5).find?
    isNameLine)

/-- Modelled from the spec: confidence as the mean of the NON-NEGATIVE
per-token confidences (the source keeps only strictly positive ones). -/
def specNonNegMean (l : List Int) : ℚ :=
  let ks := l.filter (fun c => decide (0 ≤ c))
  if ks.isEmpty then 0 else ((ks.foldl (· + ·) 0 : Int) : ℚ) / ks.length

/-- A freshly created DocumentScan row (models.py defaults). -/
def freshScan : ScanState :=
  { scan_status := ScanStatus.pending
    extracted_text := none
    confidence_score := 0
    page_count := 1
    processing_time := 0
    error_message := none }

/-- A stored ExtractedData row with a populated phone field (update-merge
example). -/
def rowW : Row := fun k => if k == "phone" then some (DVal.s "555") else none

/-- Failure oracle making exactly the merge step (step 5) raise. -/
def failsW : Nat → Option String := fun i => if i = 5 then some "merge boom" else none

/-- A freshly created GeneratedCV row (models.py defaults). -/
def g0W : GenState :=
  { generation_status := GenStatus.pending
    cv_file := none
    application_form := none
    merged_document := none
    error_message := none }

/-! ## Helper lemmas -/

theorem foldl_rat_add_shift (l : List ℚ) (a : ℚ) :
    l.foldl (· + ·) a = a + l.foldl (· + ·) 0 := by
  induction l generalizing a with
  | nil => simp
  | cons x xs ih =>
    simp only [List.foldl_cons]
    rw [ih, ih (0 + x)]
    ring

theorem foldl_add_snd (l : List (String × ℚ)) (a : ℚ) :
    l.foldl (fun t p => t + p.2) a = a + (l.map (fun p => p.2)).foldl (· + ·) 0 := by
  induction l generalizing a with
  | nil => simp
  | cons x xs ih =>
    simp only [List.foldl_cons, List.map_cons]
    rw [ih, foldl_rat_add_shift (xs.map (fun p => p.2)) (0 + x.2)]
    ring

theorem nameScan_eq_find (ls : List (List Char)) :
    nameScan ls = (ls.map (fun l => String.mk (trimWs l))).find? isNameLine := by
  induction ls with
  | nil => rfl
  | cons l ls ih =>
    cases h : isNameLine (String.mk (trimWs l)) <;>
      simp [nameScan, List.find?, h, ih]

theorem updateRow_falsy (d : List (String × DVal)) (r : Row) (k : String)
    (h : ∀ v, (k, v) ∈ d → DVal.truthy v = false) :
    updateRow r d k = r k := by
  induction d generalizing r with
  | nil => rfl
  | cons p ps ih =>
    have hstep : updateRow r (p :: ps) = updateRow
        (if extractedDataFields.contains p.1 && DVal.truthy p.2 then
          (fun k2 => if k2 == p.1 then some p.2 else r k2)
        else r) ps := rfl
    rw [hstep]
    have hps : ∀ v, (k, v) ∈ ps → DVal.truthy v = false := by
      intro v hv
      exact h v (List.mem_cons_of_mem _ hv)
    rw [ih _ hps]
    by_cases hc : (extractedDataFields.contains p.1 && DVal.truthy p.2) = true
    · rw [if_pos hc]
      by_cases hk : (k == p.1) = true
      · exfalso
        have hkp : k = p.1 := by simpa using hk
        have : DVal.truthy p.2 = false := by
          apply h p.2
        
          rw [hkp]
          exact List.mem_cons_self _ _
        simp [this] at hc
      · simp [hk]
    · rw [if_neg hc]

/-! ## Claims -/

/-- C1: the claim asserts that within one run of process_document the status
never goes from completed to failed.  The code violates this: for a scan
whose text contains a date-shaped token and which has no ExtractedData row
yet, the run sets completed, then the create step raises on the non-field
key dates_found and the handler re-marks the SAME run failed.  This theorem
evaluates the embedded code at that failing input, exhibiting the save
sequence processing, completed, failed and the False return. -/
theorem c1_status_not_monotonic :
    (process_document
        { ocr := Except.ok ("Jane Doe\n01/02/2020", 95, 1), existing := none, elapsed := 0 }
        freshScan).trace.map (fun s => s.scan_status) =
      [ScanStatus.processing, ScanStatus.completed, ScanStatus.failed] ∧
    (process_document
        { ocr := Except.ok ("Jane Doe\n01/02/2020", 95, 1), existing := none, elapsed := 0 }
        freshScan).ok = false ∧
    (process_document
        { ocr := Except.ok ("Jane Doe\n01/02/2020", 95, 1), existing := none, elapsed := 0 }
        freshScan).scan.scan_status = ScanStatus.failed ∧
    (process_document
        { ocr := Except.ok ("Jane Doe\n01/02/2020", 95, 1), existing := none, elapsed := 0 }
        freshScan).scan.extracted_text = some "Jane Doe\n01/02/2020" ∧
    (process_document
        { ocr := Except.ok ("Jane Doe\n01/02/2020", 95, 1), existing := none, elapsed := 0 }
        freshScan).scan.error_message.isSome = true := by
  decide

/-- C3 counterexample: on the claimed input the extracted phone value is the
EMPTY string (Python findall returns capture-group 1, which did not
participate in the match of "555-123-4567"), not a value matching
"555-123-4567"; and no skills key is produced at all, because the skills
trigger line is excluded by the loop and no line follows it. -/
theorem c3_counterexample :
    dlookup (extract_structured_data "Jane Doe\njane@x.com\n555-123-4567\nSkills: Python, SQL")
        "phone" = some (DVal.s "") ∧
    DVal.s "" ≠ DVal.s "555-123-4567" ∧
    dlookup (extract_structured_data "Jane Doe\njane@x.com\n555-123-4567\nSkills: Python, SQL")
        "skills" = none := by
  refine ⟨by decide, by decide, by decide⟩

/-- C3 amended: on the scenario input, extract_structured_data returns
exactly full_name "Jane Doe" and email "jane@x.com" as claimed, but the phone
entry is the empty string (the unset optional country-code capture group that
findall reports) and no skills entry is present (the trigger line "Skills:
Python, SQL" is itself excluded and nothing follows it). -/
theorem c3_amended_extraction :
    extract_structured_data "Jane Doe\njane@x.com\n555-123-4567\nSkills: Python, SQL" =
      [("email", DVal.s "jane@x.com"), ("phone", DVal.s ""), ("full_name", DVal.s "Jane Doe")] := by
  decide

/-- C4 counterexample: ".jpg" is a supported extension, yet
extract_text_from_document raises when the image file cannot be opened —
`Image.open` runs outside any handler, so the claim that it never raises for
supported extensions is false. -/
theorem c4_counterexample :
    imageExts.contains (splitextExtLower "photo.jpg") = true ∧
    extract_text_from_document ⟨⟨Except.error ([]), none⟩, none⟩ "photo.jpg" =
      DocResult.imageOpenError := by
  refine ⟨by decide, by decide⟩

/-- C4 amended: for a ".pdf" extension the call never raises; for a supported
image extension it never raises PROVIDED the image file opens successfully;
for any other extension it raises the unsupported-format ValueError (a
distinct constructor from the absorbed OCR failures) carrying the lowered
extension. -/
theorem c4_amended_dispatch (env : DocEnv) (p : String) :
    (splitextExtLower p = ".pdf" → (extract_text_from_document env p).isOk = true) ∧
    (imageExts.contains (splitextExtLower p) = true → env.imageOpen.isSome = true →
      (extract_text_from_document env p).isOk = true) ∧
    (splitextExtLower p ≠ ".pdf" → imageExts.contains (splitextExtLower p) = false →
      extract_text_from_document env p = DocResult.unsupported (splitextExtLower p)) := by
  refine ⟨?_, ?_, ?_⟩
  · intro h
    simp [extract_text_from_document, h, DocResult.isOk]
  · intro h1 h2
    have hne : (splitextExtLower p == ".pdf") = false := by
      cases hb : (splitextExtLower p == ".pdf") with
      | false => rfl
      | true =>
        have hpe : splitextExtLower p = ".pdf" := by simpa using hb
        rw [hpe] at h1
        simp [imageExts] at h1
    simp at h1
    cases himg : env.imageOpen with
    | none => rw [himg] at h2; simp at h2
    | some img =>
      simp [extract_text_from_document, hne, h1, himg, DocResult.isOk]
  · intro h1 h2
    have hne : (splitextExtLower p == ".pdf") = false := by
      cases hb : (splitextExtLower p == ".pdf") with
      | false => rfl
      | true => exact absurd (by simpa using hb) h1
    simp at h2
    simp [extract_text_from_document, hne, h2]

/-- C4 witness: the amended theorem applied at a PDF path (uppercase
extension) and at a ".docx" path. -/
theorem c4_amended_witness :
    splitextExtLower "scan.PDF" = ".pdf" ∧
    (extract_text_from_document ⟨⟨Except.ok ["w"], none⟩, none⟩ "scan.PDF").isOk = true ∧
    imageExts.contains (splitextExtLower "id.jpeg") = true ∧
    (extract_text_from_document ⟨⟨Except.error ([]), none⟩, some ⟨[("w", 90)], false⟩⟩
      "id.jpeg").isOk = true ∧
    extract_text_from_document ⟨⟨Except.ok ["w"], none⟩, none⟩ "form.docx" =
      DocResult.unsupported ".docx" := by
  refine ⟨by decide,
    (c4_amended_dispatch _ _).1 (by decide),
    by decide,
    (c4_amended_dispatch _ _).2.1 (by decide) (by decide),
    ?_⟩
  have h := (c4_amended_dispatch (⟨⟨Except.ok ["w"], none⟩, none⟩ : DocEnv) "form.docx").2.2
    (by decide) (by decide)
  rw [h]
  decide

/-- C6 counterexample: for a text whose first five raw lines are all empty,
the code finds no full name (it scans `lines[:5]`), while the claimed rule
(scan the first 5 NON-EMPTY lines) would return "John Smith". -/
theorem c6_counterexample :
    fullNameOf "\n\n\n\n\nJohn Smith" = none ∧
    specFullNameScan "\n\n\n\n\nJohn Smith" = some "John Smith" := by
  refine ⟨by decide, by decide⟩

/-- C6 amended: the full-name candidate is found by scanning the first 5 RAW
lines of the newline split (blank lines count toward the five and are merely
skipped as candidates): the result is exactly the first stripped line among
them with at least 2 tokens, length under 50, no digit and no at sign, and
the field is absent when no such line exists among those five. -/
theorem c6_amended_first_five_raw_lines (t : String) :
    fullNameOf t = (((splitNL t.data).take 5).map (fun l => String.mk (trimWs l))).find?
      isNameLine := by
  unfold fullNameOf
  exact nameScan_eq_find _

/-- C9: merge_documents concatenates, in order, the CV pages, the application
form pages, and — only when the original path ends in ".pdf" — the original's
pages; a missing source contributes nothing and no page is altered.  The
second conjunct instantiates the claim's scenario: a 2-page CV, a 1-page
form, and an existing but non-PDF original yield exactly those 3 pages. -/
theorem c9_merge_concatenation (fs : String → Option (List String))
    (cv_path app_path orig_path : String) :
    merge_documents fs cv_path app_path orig_path =
      ((fs cv_path).getD [] ++ (fs app_path).getD []) ++
        (if strEndsWith orig_path ".pdf" = true then (fs orig_path).getD [] else []) ∧
    merge_documents
      (fun p => if p == "cv.pdf" then some ["cv1", "cv2"]
        else if p == "form.pdf" then some ["form1"]
        else if p == "photo.jpg" then some ["orig1"] else none)
      "cv.pdf" "form.pdf" "photo.jpg" = ["cv1", "cv2", "form1"] := by
  refine ⟨?_, by decide⟩
  simp only [merge_documents]
  cases h1 : fs cv_path <;> cases h2 : fs app_path <;> cases h3 : fs orig_path <;>
    cases he : strEndsWith orig_path ".pdf" <;> simp

theorem pdfOcrFallback_conf (imgs : List OcrImage) (acc : String) :
    (pdfOcrFallback (some imgs) acc).2.2 = imgs.length ∧
    (pdfOcrFallback (some imgs) acc).2.1 =
      (if imgs.isEmpty then 0
       else ((imgs.map (fun im => (extract_text_from_image im).2)).foldl (· + ·) 0) /
         (imgs.length : ℚ)) := by
  constructor
  · rfl
  · have h2 : (pdfOcrFallback (some imgs) acc).2.1 =
        (if imgs.isEmpty then (0 : ℚ)
         else ((imgs.map extract_text_from_image).foldl (fun t p => t + p.2) 0) /
           (imgs.length : ℚ)) := rfl
    rw [h2, foldl_add_snd]
    simp [List.map_map, Function.comp_def]

/-- C2: extract_text_from_pdf returns the stripped direct-text concatenation
with confidence exactly 95 and the native page count whenever the direct text
layer is non-blank (independently of the rasterization oracle); otherwise it
OCRs the rendered pages and reports page_count equal to the rendered page
count and confidence equal to the arithmetic mean of the per-page
confidences (0 for zero pages); a rasterization failure — the only
remaining exception source, every per-page OCR failure being absorbed by
extract_text_from_image — collapses to ("", 0, 0), so the call never
raises. -/
theorem c2_extract_from_pdf (env : PdfEnv) :
    (∀ pages, env.direct = Except.ok pages → (stripS (directConcat pages)).isEmpty = false →
      extract_text_from_pdf env = (stripS (directConcat pages), 95, pages.length)) ∧
    (pdfDirectBlank env = true → ∀ imgs, env.render = some imgs →
      (extract_text_from_pdf env).2.2 = imgs.length ∧
      (extract_text_from_pdf env).2.1 =
        (if imgs.isEmpty then 0
         else ((imgs.map (fun im => (extract_text_from_image im).2)).foldl (· + ·) 0) /
           (imgs.length : ℚ))) ∧
    (pdfDirectBlank env = true → env.render = none → extract_text_from_pdf env = ("", 0, 0)) := by
  obtain ⟨dir, ren⟩ := env
  refine ⟨?_, ?_, ?_⟩
  · intro pages hdir hne
    cases hdir
    simp [extract_text_from_pdf, hne]
  · intro hblank imgs hren
    cases hren
    cases dir with
    | ok pages =>
      have hb : (stripS (directConcat pages)).isEmpty = true := by
        simpa [pdfDirectBlank] using hblank
      simpa [extract_text_from_pdf, hb] using pdfOcrFallback_conf imgs (directConcat pages)
    | error pp =>
      simpa [extract_text_from_pdf] using pdfOcrFallback_conf imgs (directConcat pp)
  · intro hblank hren
    cases hren
    cases dir with
    | ok pages =>
      have hb : (stripS (directConcat pages)).isEmpty = true := by
        simpa [pdfDirectBlank] using hblank
      simp [extract_text_from_pdf, hb, pdfOcrFallback]
    | error pp => simp [extract_text_from_pdf, pdfOcrFallback]

/-- C2 witness: a one-page PDF with native text "hello" takes the direct
path. -/
theorem c2_witness :
    (stripS (directConcat ["hello"])).isEmpty = false ∧
    extract_text_from_pdf ⟨Except.ok ["hello"], none⟩ = ("hello", 95, 1) := by
  refine ⟨by decide, ?_⟩
  have h := (c2_extract_from_pdf ⟨Except.ok ["hello"], none⟩).1 ["hello"] rfl (by decide)
  rw [h]
  decide

/-- C5 counterexample: a recognizer reporting tokens with confidences 0 and
50 yields confidence 50 from the code (the filter is strictly positive,
`int(conf) > 0`), while the claimed mean over NON-NEGATIVE confidences is
25. -/
theorem c5_counterexample :
    (extract_text_from_image ⟨[("a", 0), ("b", 50)], false⟩).2 = 50 ∧
    specNonNegMean (imageConfs ⟨[("a", 0), ("b", 50)], false⟩) = 25 ∧
    (50 : ℚ) ≠ 25 := by
  refine ⟨?_, ?_, by norm_num⟩
  · show (if ([(0 : Int), 50].filter (fun c => decide (0 < c))).isEmpty then (0 : ℚ)
      else ((([(0 : Int), 50].filter (fun c => decide (0 < c))).foldl (· + ·) 0 : Int) : ℚ) /
        (([(0 : Int), 50].filter (fun c => decide (0 < c))).length : ℚ)) = 50
    norm_num
  · show (if ([(0 : Int), 50].filter (fun c => decide (0 ≤ c))).isEmpty then (0 : ℚ)
      else ((([(0 : Int), 50].filter (fun c => decide (0 ≤ c))).foldl (· + ·) 0 : Int) : ℚ) /
        (([(0 : Int), 50].filter (fun c => decide (0 ≤ c))).length : ℚ)) = 25
    norm_num

/-- C5 amended: on no recognizer exception the returned confidence is the
mean of the STRICTLY POSITIVE per-token confidences (0 when none); with no
recognized tokens the result is confidence 0 and empty text; a recognizer
exception is absorbed into ("", 0), so the call never raises. -/
theorem c5_amended_strictly_positive_mean (img : OcrImage) :
    (img.ocrFails = true → extract_text_from_image img = ("", 0)) ∧
    (img.ocrFails = false →
      (extract_text_from_image img).2 =
        (if ((imageConfs img).filter (fun c => decide (0 < c))).isEmpty then 0
         else ((((imageConfs img).filter (fun c => decide (0 < c))).foldl (· + ·) 0 : Int) : ℚ) /
           ((((imageConfs img).filter (fun c => decide (0 < c))).length : Nat) : ℚ))) ∧
    (img.tokens = [] → extract_text_from_image img = ("", 0)) := by
  obtain ⟨tks, fl⟩ := img
  refine ⟨?_, ?_, ?_⟩
  · intro h
    cases h
    rfl
  · intro h
    cases h
    rfl
  · intro h
    cases h
    cases fl <;> decide

/-- C5 witness: the amended theorem applied to a recognizer report with one
positive-confidence token and one minus-one token. -/
theorem c5_amended_witness :
    ((⟨[("hi", 80), ("lo", -1)], false⟩ : OcrImage).ocrFails = false) ∧
    (extract_text_from_image ⟨[("hi", 80), ("lo", -1)], false⟩).2 = 80 := by
  refine ⟨rfl, ?_⟩
  have h := (c5_amended_strictly_positive_mean ⟨[("hi", 80), ("lo", -1)], false⟩).2.1 rfl
  rw [h]
  show (if ([(80 : Int), -1].filter (fun c => decide (0 < c))).isEmpty then (0 : ℚ)
      else ((([(80 : Int), -1].filter (fun c => decide (0 < c))).foldl (· + ·) 0 : Int) : ℚ) /
        ((([(80 : Int), -1].filter (fun c => decide (0 < c))).length : Nat) : ℚ)) = 80
  norm_num

/-- C7: when process_document updates an already-existing ExtractedData row,
the stored row becomes the truthy-overwrite merge of the extraction result,
and every key all of whose extracted values are falsy leaves the stored
field unchanged. -/
theorem c7_truthy_overwrite_only (text : String) (c el : ℚ) (p : Nat) (s0 : ScanState)
    (r : Row) (k : String)
    (h : ∀ v, (k, v) ∈ extract_structured_data text → DVal.truthy v = false) :
    (process_document ⟨Except.ok (text, c, p), some r, el⟩ s0).row =
      some (updateRow r (extract_structured_data text)) ∧
    updateRow r (extract_structured_data text) k = r k := by
  exact ⟨rfl, updateRow_falsy _ _ _ h⟩

/-- C7 witness: re-extraction of "555-123-4567" yields the falsy phone value
"" (the unset capture group), and the stored phone "555" survives the
update. -/
theorem c7_witness :
    (∀ v, ("phone", v) ∈ extract_structured_data "555-123-4567" → DVal.truthy v = false) ∧
    updateRow rowW (extract_structured_data "555-123-4567") "phone" = some (DVal.s "555") := by
  have hsd : extract_structured_data "555-123-4567" = [("phone", DVal.s "")] := by decide
  have hf : ∀ v, ("phone", v) ∈ extract_structured_data "555-123-4567" →
      DVal.truthy v = false := by
    intro v hv
    rw [hsd] at hv
    simp at hv
    rw [hv]
    rfl
  refine ⟨hf, ?_⟩
  have h := (c7_truthy_overwrite_only "555-123-4567" 0 0 0 freshScan rowW "phone" hf).2
  rw [h]
  rfl

/-- C10: every text with a date-shaped token makes extract_structured_data
emit the dates_found key, which is not an ExtractedData field; on a scan with
no existing row the create step therefore raises AFTER the scan was marked
completed, and the run re-marks the scan failed with the exception message
and returns False. -/
theorem c10_dates_found_breaks_create (text : String) (c el : ℚ) (p : Nat) (s0 : ScanState)
    (hd : dateFindall text ≠ []) :
    ("dates_found", DVal.ls (dateFindall text)) ∈ extract_structured_data text ∧
    extractedDataFields.contains "dates_found" = false ∧
    (process_document ⟨Except.ok (text, c, p), none, el⟩ s0).ok = false ∧
    (process_document ⟨Except.ok (text, c, p), none, el⟩ s0).scan.scan_status =
      ScanStatus.failed ∧
    (process_document ⟨Except.ok (text, c, p), none, el⟩ s0).scan.error_message =
      some "ExtractedData() got unexpected keyword arguments" ∧
    (process_document ⟨Except.ok (text, c, p), none, el⟩ s0).trace.map
        (fun s => s.scan_status) =
      [ScanStatus.processing, ScanStatus.completed, ScanStatus.failed] := by
  have hmem : ("dates_found", DVal.ls (dateFindall text)) ∈ extract_structured_data text := by
    cases hdd : dateFindall text with
    | nil => exact absurd hdd hd
    | cons d ds =>
      simp [extract_structured_data, extract_personal_info, hdd]
  have hall : (extract_structured_data text).all
      (fun q => extractedDataFields.contains q.1) = false := by
    cases hq : (extract_structured_data text).all (fun q => extractedDataFields.contains q.1) with
    | false => rfl
    | true =>
      have hx := List.all_eq_true.mp hq _ hmem
      simp [extractedDataFields] at hx
  have hcr : createRow (extract_structured_data text) =
      Except.error "ExtractedData() got unexpected keyword arguments" := by
    unfold createRow
    rw [hall]
    simp
  refine ⟨hmem, by decide, ?_, ?_, ?_, ?_⟩ <;>
    simp [process_document, hcr]

/-- C10 witness: the theorem applied to a concrete dated text on a fresh
scan. -/
theorem c10_witness :
    dateFindall "John Smith\n3/4/1999" ≠ [] ∧
    (process_document ⟨Except.ok ("John Smith\n3/4/1999", 90, 1), none, 0⟩ freshScan).ok =
      false ∧
    (process_document ⟨Except.ok ("John Smith\n3/4/1999", 90, 1), none, 0⟩
        freshScan).trace.map (fun s => s.scan_status) =
      [ScanStatus.processing, ScanStatus.completed, ScanStatus.failed] := by
  have hd : dateFindall "John Smith\n3/4/1999" ≠ [] := by decide
  have h := c10_dates_found_breaks_create "John Smith\n3/4/1999" 90 0 1 freshScan hd
  exact ⟨hd, h.2.2.1, h.2.2.2.2.2⟩

/-- C8: starting from a state satisfying the artifact-ordering invariant,
every state saved by generate_cv_and_forms satisfies it — merged_document is
never populated unless cv_file and application_form already are, and an
application form implies a CV, so the three artifacts appear strictly in the
order CV, application form, merged document.  When the first raising step is
step j (with message m), the run returns False, sets failed, persists m,
never populates merged_document, and leaves the artifacts persisted before
step j in place: the CV file from step 3 on, the application form from step
5 on — no rollback. -/
theorem c8_generation_order (fails : Nat → Option String) (gid : String) (g0 : GenState)
    (h : genInv g0) :
    (∀ s ∈ (generate_cv_and_forms fails gid g0).trace, genInv s) ∧
    (∀ j m, fails j = some m → (∀ i, i < j → fails i = none) → j ≤ 6 →
      (generate_cv_and_forms fails gid g0).ok = false ∧
      (generate_cv_and_forms fails gid g0).gcv.generation_status = GenStatus.failed ∧
      (generate_cv_and_forms fails gid g0).gcv.error_message = some m ∧
      (generate_cv_and_forms fails gid g0).gcv.merged_document = g0.merged_document ∧
      (3 ≤ j → (generate_cv_and_forms fails gid g0).gcv.cv_file =
        some ("cv_" ++ gid ++ ".pdf")) ∧
      (5 ≤ j → (generate_cv_and_forms fails gid g0).gcv.application_form =
        some ("application_" ++ gid ++ ".pdf"))) := by
  have hg : genInv { g0 with generation_status := GenStatus.generating } := h
  have hs2 : genInv { g0 with
      generation_status := GenStatus.generating
      cv_file := some ("cv_" ++ gid ++ ".pdf") } :=
    ⟨fun hm => ⟨(hg.1 hm).1, rfl⟩, fun _ => rfl⟩
  have hs3 : genInv { g0 with
      generation_status := GenStatus.generating
      cv_file := some ("cv_" ++ gid ++ ".pdf")
      application_form := some ("application_" ++ gid ++ ".pdf") } :=
    ⟨fun _ => ⟨rfl, rfl⟩, fun _ => rfl⟩
  have hs4 : genInv { g0 with
      generation_status := GenStatus.generating
      cv_file := some ("cv_" ++ gid ++ ".pdf")
      application_form := some ("application_" ++ gid ++ ".pdf")
      merged_document := some ("merged_" ++ gid ++ ".pdf") } :=
    ⟨fun _ => ⟨rfl, rfl⟩, fun _ => rfl⟩
  constructor
  · intro s hs
    cases h0 : fails 0 with
    | some m =>
      simp [generate_cv_and_forms, h0, failGen] at hs
      rcases hs with rfl | rfl
      · exact hg
      · exact hg
    | none =>
      cases h1 : fails 1 with
      | some m =>
        simp [generate_cv_and_forms, h0, h1, failGen] at hs
        rcases hs with rfl | rfl
        · exact hg
        · exact hg
      | none =>
        cases h2 : fails 2 with
        | some m =>
          simp [generate_cv_and_forms, h0, h1, h2, failGen] at hs
          rcases hs with rfl | rfl
          · exact hg
          · exact hg
        | none =>
          cases h3 : fails 3 with
          | some m =>
            simp [generate_cv_and_forms, h0, h1, h2, h3, failGen] at hs
            rcases hs with rfl | rfl | rfl
            · exact hg
            · exact hs2
            · exact hs2
          | none =>
            cases h4 : fails 4 with
            | some m =>
              simp [generate_cv_and_forms, h0, h1, h2, h3, h4, failGen] at hs
              rcases hs with rfl | rfl | rfl
              · exact hg
              · exact hs2
              · exact hs2
            | none =>
              cases h5 : fails 5 with
              | some m =>
                simp [generate_cv_and_forms, h0, h1, h2, h3, h4, h5, failGen] at hs
                rcases hs with rfl | rfl | rfl | rfl
                · exact hg
                · exact hs2
                · exact hs3
                · exact hs3
              | none =>
                cases h6 : fails 6 with
                | some m =>
                  simp [generate_cv_and_forms, h0, h1, h2, h3, h4, h5, h6, failGen] at hs
                  rcases hs with rfl | rfl | rfl | rfl
                  · exact hg
                  · exact hs2
                  · exact hs3
                  · exact hs3
                | none =>
                  simp [generate_cv_and_forms, h0, h1, h2, h3, h4, h5, h6] at hs
                  rcases hs with rfl | rfl | rfl | rfl | rfl
                  · exact hg
                  · exact hs2
                  · exact hs3
                  · exact hs4
                  · exact hs4
  · intro j m hj hprev hle
    interval_cases j
    · simp [generate_cv_and_forms, hj, failGen]
    · simp [generate_cv_and_forms, hprev 0 (by omega), hj, failGen]
    · simp [generate_cv_and_forms, hprev 0 (by omega), hprev 1 (by omega), hj, failGen]
    · simp [generate_cv_and_forms, hprev 0 (by omega), hprev 1 (by omega),
        hprev 2 (by omega), hj, failGen]
    · simp [generate_cv_and_forms, hprev 0 (by omega), hprev 1 (by omega),
        hprev 2 (by omega), hprev 3 (by omega), hj, failGen]
    · simp [generate_cv_and_forms, hprev 0 (by omega), hprev 1 (by omega),
        hprev 2 (by omega), hprev 3 (by omega), hprev 4 (by omega), hj, failGen]
    · simp [generate_cv_and_forms, hprev 0 (by omega), hprev 1 (by omega),
        hprev 2 (by omega), hprev 3 (by omega), hprev 4 (by omega), hprev 5 (by omega),
        hj, failGen]

/-- C8 witness: a run on a fresh GeneratedCV whose merge step raises keeps
the already-persisted CV and application form, never populates the merged
slot, ends failed with the message, and returns False. -/
theorem c8_witness :
    genInv g0W ∧
    (generate_cv_and_forms failsW "7" g0W).ok = false ∧
    (generate_cv_and_forms failsW "7" g0W).gcv.generation_status = GenStatus.failed ∧
    (generate_cv_and_forms failsW "7" g0W).gcv.error_message = some "merge boom" ∧
    (generate_cv_and_forms failsW "7" g0W).gcv.merged_document = none ∧
    (generate_cv_and_forms failsW "7" g0W).gcv.cv_file = some "cv_7.pdf" ∧
    (generate_cv_and_forms failsW "7" g0W).gcv.application_form = some "application_7.pdf" := by
  have hinv : genInv g0W := ⟨fun hm => by simp [g0W] at hm, fun ha => by simp [g0W] at ha⟩
  have h := (c8_generation_order failsW "7" g0W hinv).2 5 "merge boom" rfl
    (fun i hi => by interval_cases i <;> rfl) (by omega)
  refine ⟨hinv, h.1, h.2.1, h.2.2.1, ?_, ?_, ?_⟩
  · exact h.2.2.2.1
  · exact h.2.2.2.2.1 (by omega)
  · exact h.2.2.2.2.2 (by omega)
